import Mathlib

/-!
Verification development for `soundmonitor27.py` (scbrac/soundmonitor).

The script monitors a helium compressor by sampling the microphone level in a
loop (`recordday`), sending debounced e-mail notifications for three condition
kinds (recording failure, level below threshold, laptop on battery), tracking
the per-cycle minimum and maximum level, and recomputing the cycle deadline in
`main` from the `--aliveperiod` option.

Embedding conventions:
* wall-clock instants and durations are integers (seconds for the sampling
  loop, minutes for the cycle-deadline computation, matching the unit each
  piece of the source works in);
* sound levels (Python floats: a mean of absolute values, or the sentinel -1)
  are rationals;
* a Python exception that the source does not catch is `Except.error ()`.
-/

namespace SoundMonitor

/-- The `OPTS` namedtuple built in `main` (soundmonitor27.py line 62 and
lines 270-274).  `threshold` and `seconds` are numeric options; `period` is
the `--warnperiod` cool-down in seconds; `aliveperiod` is the raw cadence
string such as "1d" or "30m". -/
structure OPTS where
  threshold : ℚ
  rate : ℤ
  seconds : ℚ
  emailto : List String
  server : String
  period : ℤ
  aliveperiod : List Char
  tmpdir : String
deriving Repr, DecidableEq

/-- One loop tick's environment inputs: the current time, the level returned
by `getsoundlevel` (mean absolute value, or -1 on `arecord` failure,
lines 113-122), and the result of `discharging()` (lines 163-180). -/
structure Tick where
  now : ℤ
  soundlevel : ℚ
  discharging : Bool
deriving Repr, DecidableEq

/-- The local mutable state of one `recordday` call (lines 191-196): the three
last-notification times and the running extremum levels. -/
structure RecState where
  lastwarningtime : ℤ
  lastalarmtime : ℤ
  lastbatterytime : ℤ
  minsoundlevel : ℚ
  maxsoundlevel : ℚ
deriving Repr, DecidableEq

/-- The observable effects of one tick: which of the three e-mails
`sendemail` was invoked for, and which `savesound` copies were made. -/
structure TickOut where
  warningSent : Bool
  alarmSent : Bool
  batterySent : Bool
  savedMin : Bool
  savedMax : Bool
deriving Repr, DecidableEq

/-- `sendemail` (lines 67-101).  The returned `Bool` records whether a message
actually went over the network.  `message.to[0]` on an empty recipient list
raises `IndexError` (line 79); a falsy first recipient takes the log-only
early return (lines 79-81); otherwise `smtplib` is contacted (lines 98-100)
and may raise, which nothing in the script catches.  `smtpOk` is the oracle
for whether that delivery attempt succeeds. -/
def sendemail (recipients : List String) (smtpOk : Bool) : Except Unit Bool :=
  match recipients with
  | [] => Except.error ()
  | first :: _ =>
    if first = "" then Except.ok false
    else if smtpOk then Except.ok true
    else Except.error ()

/-- `latencyover` (lines 135-142): true iff strictly more than `period`
seconds have elapsed since `lasttime`. -/
def latencyover (period lasttime now : ℤ) : Bool :=
  decide (period < now - lasttime)

/-- Guard of the warning branch, line 212:
`if (soundlevel < 0) and latencyover(opts, lastwarningtime)`. -/
def warningCond (opts : OPTS) (s : RecState) (tk : Tick) : Bool :=
  decide (tk.soundlevel < 0) && latencyover opts.period s.lastwarningtime tk.now

/-- Guard of the alarm branch, lines 224-225:
`elif (0 < soundlevel < opts.threshold) and latencyover(opts, lastalarmtime)`.
The `elif` makes it conditional on the warning branch not having been taken,
hence the leading `!warningCond` factor. -/
def alarmCond (opts : OPTS) (s : RecState) (tk : Tick) : Bool :=
  !warningCond opts s tk &&
    (decide (0 < tk.soundlevel) && decide (tk.soundlevel < opts.threshold)) &&
    latencyover opts.period s.lastalarmtime tk.now

/-- Guard of the battery branch, line 236 (an independent `if`):
`if discharging() and latencyover(opts, lastbatterytime)`. -/
def batteryCond (opts : OPTS) (s : RecState) (tk : Tick) : Bool :=
  tk.discharging && latencyover opts.period s.lastbatterytime tk.now

/-- Guard of the minimum branch, line 247: `if soundlevel < minsoundlevel`. -/
def newMinCond (s : RecState) (tk : Tick) : Bool :=
  decide (tk.soundlevel < s.minsoundlevel)

/-- Guard of the maximum branch, line 250:
`elif soundlevel > maxsoundlevel` — only reached when the minimum branch was
not taken. -/
def newMaxCond (s : RecState) (tk : Tick) : Bool :=
  !newMinCond s tk && decide (s.maxsoundlevel < tk.soundlevel)

/-- One iteration of the `while` loop of `recordday` (lines 197-252), in the
runs where every `sendemail` call returns normally.  State updates mirror the
assignments on lines 222, 235, 246, 249 and 252 (each last-notification time
is set right after its e-mail, and the extremum is overwritten after its
`savesound`). -/
def recordStep (opts : OPTS) (s : RecState) (tk : Tick) : RecState × TickOut :=
  let warning := warningCond opts s tk
  let alarm := alarmCond opts s tk
  let battery := batteryCond opts s tk
  let newMin := newMinCond s tk
  let newMax := newMaxCond s tk
  ({ lastwarningtime := if warning then tk.now else s.lastwarningtime
     lastalarmtime := if alarm then tk.now else s.lastalarmtime
     lastbatterytime := if battery then tk.now else s.lastbatterytime
     minsoundlevel := if newMin then tk.soundlevel else s.minsoundlevel
     maxsoundlevel := if newMax then tk.soundlevel else s.maxsoundlevel },
   { warningSent := warning
     alarmSent := alarm
     batterySent := battery
     savedMin := newMin
     savedMax := newMax })

/-- The initial local state of a `recordday` call that starts at instant
`start` (lines 191-196): all three last-notification times are set to
`start - period`, the running minimum to `1e9` and the running maximum
to `0`. -/
def recordInit (start period : ℤ) : RecState :=
  { lastwarningtime := start - period
    lastalarmtime := start - period
    lastbatterytime := start - period
    minsoundlevel := 1000000000
    maxsoundlevel := 0 }

/-- The `while` loop of `recordday` run over a list of ticks, collecting the
per-tick outputs. -/
def recordRun (opts : OPTS) (s : RecState) : List Tick → RecState × List TickOut
  | [] => (s, [])
  | tk :: rest =>
    let step := recordStep opts s tk
    let further := recordRun opts step.1 rest
    (further.1, step.2 :: further.2)

/-- A whole `recordday` call starting at instant `start` (lines 183-261),
in the runs where every `sendemail` call returns normally: the loop locals
are freshly initialised (lines 191-196) and the loop processes the ticks.
(The unconditional daily heartbeat e-mail of lines 254-261 follows the loop
and touches no state.) -/
def recordday (opts : OPTS) (start : ℤ) (ticks : List Tick) :
    RecState × List TickOut :=
  recordRun opts (recordInit start opts.period) ticks

/-- The `while 1` loop of `main` (lines 284-293): each cycle is a fresh
`recordday(opts, until)` call.  No state is threaded from one cycle to the
next — `recordday`'s locals are re-created on every call. -/
def mainCycles (opts : OPTS) (cycles : List (ℤ × List Tick)) :
    List (RecState × List TickOut) :=
  cycles.map (fun c => recordday opts c.1 c.2)

/-- One iteration of the `while` loop of `recordday` with exception
propagation made explicit: each of the three `sendemail` calls
(lines 221, 234, 245) may raise (empty recipient list, or `smtplib` failure
when `smtpOk = false`), and nothing in the script catches it — the loop
body has no `try`.  When a send raises, the assignment to the corresponding
last-notification time on the following line (222, 235, 246) is never
executed and the whole call unwinds. -/
def recordStepE (opts : OPTS) (smtpOk : Bool) (s : RecState) (tk : Tick) :
    Except Unit (RecState × TickOut) :=
  let warning := warningCond opts s tk
  let alarm := alarmCond opts s tk
  let battery := batteryCond opts s tk
  match (if warning then (sendemail opts.emailto smtpOk).map (fun _ => ())
         else Except.ok ()) with
  | Except.error e => Except.error e
  | Except.ok _ =>
    match (if alarm then (sendemail opts.emailto smtpOk).map (fun _ => ())
           else Except.ok ()) with
    | Except.error e => Except.error e
    | Except.ok _ =>
      match (if battery then (sendemail opts.emailto smtpOk).map (fun _ => ())
             else Except.ok ()) with
      | Except.error e => Except.error e
      | Except.ok _ => Except.ok (recordStep opts s tk)

/-- The `while` loop of `recordday` with exception propagation: the first
uncaught exception in a tick aborts the whole run (and, in the script, the
whole process — `main` has no handler either). -/
def recordRunE (opts : OPTS) (smtpOk : Bool) (s : RecState) :
    List Tick → Except Unit (RecState × List TickOut)
  | [] => Except.ok (s, [])
  | tk :: rest =>
    match recordStepE opts smtpOk s tk with
    | Except.error e => Except.error e
    | Except.ok step =>
      match recordRunE opts smtpOk step.1 rest with
      | Except.error e => Except.error e
      | Except.ok further => Except.ok (further.1, step.2 :: further.2)

/-- Digit-string value, the core of Python's `int()`: `none` on the empty
string or on any non-digit character (a `ValueError`). -/
def digitsToNat : List Char → Option ℕ
  | [] => none
  | cs =>
    if cs.all Char.isDigit then
      some (cs.foldl (fun a c => 10 * a + (c.toNat - 48)) 0)
    else none

/-- Python `int(s)` on a plain decimal literal with an optional sign
(Python strings are modelled as their character sequences).  `none` models
the `ValueError` on anything unparseable, including the empty string. -/
def pyInt? : List Char → Option ℤ
  | '-' :: rest => (digitsToNat rest).map (fun n => -(n : ℤ))
  | '+' :: rest => (digitsToNat rest).map (fun n => (n : ℤ))
  | s => (digitsToNat s).map (fun n => (n : ℤ))

/-- The cycle-deadline computation at the top of `main`'s `while 1` loop
(lines 284-292), in minutes: `num = int(aliveperiod[:-1])`,
`unit = aliveperiod[-1]`; if the unit is `'d'` the deadline is today's
midnight plus `num` days plus 8 hours, otherwise it is now plus `num`
minutes.  `now % 1440` is the number of minutes since the most recent
midnight, so `now - now % 1440` is `todaymidnight` (line 288).  `none`
models the `ValueError` that `int` raises on an unparseable prefix (also
covering the empty cadence string, whose `int('')` raises before
`aliveperiod[-1]` is reached). -/
def nextDeadline (aliveperiod : List Char) (now : ℤ) : Option ℤ :=
  match pyInt? aliveperiod.dropLast with
  | none => none
  | some num =>
    match aliveperiod.getLast? with
    | none => none
    | some unit =>
      if unit = 'd' then
        some (now - now % 1440 + num * 1440 + 8 * 60)
      else
        some (now + num)

/-- The docopt option strings that `main` consumes (lines 264-274), after
the list normalisation of `--emailto` on lines 266-269; the numeric option
strings are kept as character sequences. -/
structure CliOptions where
  threshold : List Char
  rate : List Char
  seconds : List Char
  emailto : List String
  server : String
  warnperiod : List Char
  aliveperiod : List Char
  tmpdir : String
deriving Repr, DecidableEq

/-- The construction of `OPTS` in `main` (lines 270-274).  The only way it
can fail is a `ValueError` from `int()`/`float()` on an unparseable string
(`none`); there is no validation of any invariant — no sign check, no range
check.  (`float(options['--seconds'])` is modelled for integer literals
only; no claim depends on fractional seconds.) -/
def mainParse (o : CliOptions) : Option OPTS :=
  match pyInt? o.threshold, pyInt? o.rate, pyInt? o.seconds,
      pyInt? o.warnperiod with
  | some th, some ra, some se, some pe =>
    some { threshold := (th : ℚ), rate := ra, seconds := (se : ℚ),
           emailto := o.emailto, server := o.server, period := pe,
           aliveperiod := o.aliveperiod, tmpdir := o.tmpdir }
  | _, _, _, _ => none

/-- `main` reaches the startup e-mail (lines 275-283) and enters the
monitoring loop exactly when the `OPTS` construction succeeded: nothing
between option conversion and the loop can reject a configuration. -/
def mainStarts (o : CliOptions) : Bool :=
  (mainParse o).isSome

/-- A concrete configuration for instantiating the theorems, matching the
script's documented defaults: threshold 1000, cool-down 1800 seconds. -/
def optsA : OPTS :=
  { threshold := 1000, rate := 48000, seconds := 1,
    emailto := ["scb@localhost"], server := "localhost",
    period := 1800, aliveperiod := ['1', 'd'], tmpdir := "/tmp" }

/-- The sample sequence `[5, 3, 3, 9, 1]` from the spec's extremum-tracker
test, one tick every 10 seconds, mains power. -/
def ticks6 : List Tick :=
  [⟨10, 5, false⟩, ⟨20, 3, false⟩, ⟨30, 3, false⟩, ⟨40, 9, false⟩,
   ⟨50, 1, false⟩]

/-- A command line whose threshold is the negative integer `-5` and whose
remaining options are the script's defaults. -/
def cliBad : CliOptions :=
  { threshold := ['-', '5'], rate := ['4', '8', '0', '0', '0'],
    seconds := ['1'], emailto := ["scb@localhost"], server := "localhost",
    warnperiod := ['1', '8', '0', '0'], aliveperiod := ['1', 'd'],
    tmpdir := "/tmp" }

/-- The `OPTS` value that `main` builds from `cliBad`: the non-positive
threshold goes straight through. -/
def optsNeg : OPTS :=
  { threshold := -5, rate := 48000, seconds := 1,
    emailto := ["scb@localhost"], server := "localhost",
    period := 1800, aliveperiod := ['1', 'd'], tmpdir := "/tmp" }

/-! ## Unfolding lemmas for the tick step -/

/-- The warning e-mail of a tick is dispatched exactly under the guard of
line 212. -/
theorem recordStep_warningSent (opts : OPTS) (s : RecState) (tk : Tick) :
    (recordStep opts s tk).2.warningSent = warningCond opts s tk := rfl

/-- The alarm e-mail of a tick is dispatched exactly under the guard of
lines 224-225. -/
theorem recordStep_alarmSent (opts : OPTS) (s : RecState) (tk : Tick) :
    (recordStep opts s tk).2.alarmSent = alarmCond opts s tk := rfl

/-- The battery e-mail of a tick is dispatched exactly under the guard of
line 236. -/
theorem recordStep_batterySent (opts : OPTS) (s : RecState) (tk : Tick) :
    (recordStep opts s tk).2.batterySent = batteryCond opts s tk := rfl

/-- A `savesound` minimum copy happens exactly under the guard of
line 247. -/
theorem recordStep_savedMin (opts : OPTS) (s : RecState) (tk : Tick) :
    (recordStep opts s tk).2.savedMin = newMinCond s tk := rfl

/-- A `savesound` maximum copy happens exactly under the guard of
line 250. -/
theorem recordStep_savedMax (opts : OPTS) (s : RecState) (tk : Tick) :
    (recordStep opts s tk).2.savedMax = newMaxCond s tk := rfl

/-- `lastalarmtime` is overwritten with the tick's instant exactly when the
alarm e-mail was dispatched (line 235). -/
theorem recordStep_lastalarmtime (opts : OPTS) (s : RecState) (tk : Tick) :
    (recordStep opts s tk).1.lastalarmtime =
      if alarmCond opts s tk then tk.now else s.lastalarmtime := rfl

/-- `minsoundlevel` is overwritten with the tick's level exactly when the
minimum branch was taken (line 249). -/
theorem recordStep_minsoundlevel (opts : OPTS) (s : RecState) (tk : Tick) :
    (recordStep opts s tk).1.minsoundlevel =
      if newMinCond s tk then tk.soundlevel else s.minsoundlevel := rfl

/-! ## Characterisations of the three notification guards -/

/-- The warning guard holds iff the level is negative and strictly more
than the cool-down has elapsed since the last warning. -/
theorem warningCond_iff (opts : OPTS) (s : RecState) (tk : Tick) :
    warningCond opts s tk = true ↔
      tk.soundlevel < 0 ∧ opts.period < tk.now - s.lastwarningtime := by
  simp [warningCond, latencyover]

/-- The alarm guard holds iff `0 < level < threshold` and strictly more
than the cool-down has elapsed since the last alarm.  The `elif` guard
(`!warningCond`) is redundant here because `0 < level` already rules the
warning branch out. -/
theorem alarmCond_iff (opts : OPTS) (s : RecState) (tk : Tick) :
    alarmCond opts s tk = true ↔
      0 < tk.soundlevel ∧ tk.soundlevel < opts.threshold ∧
        opts.period < tk.now - s.lastalarmtime := by
  simp only [alarmCond, warningCond, latencyover, Bool.and_eq_true,
    Bool.not_eq_true', Bool.and_eq_false_iff, decide_eq_true_eq,
    decide_eq_false_iff_not]
  constructor
  · rintro ⟨⟨-, ⟨h1, h2⟩⟩, h3⟩
    exact ⟨h1, h2, h3⟩
  · rintro ⟨h1, h2, h3⟩
    exact ⟨⟨Or.inl (not_lt.mpr h1.le), ⟨h1, h2⟩⟩, h3⟩

/-- The battery guard holds iff the battery is discharging and strictly
more than the cool-down has elapsed since the last battery warning. -/
theorem batteryCond_iff (opts : OPTS) (s : RecState) (tk : Tick) :
    batteryCond opts s tk = true ↔
      tk.discharging = true ∧ opts.period < tk.now - s.lastbatterytime := by
  simp [batteryCond, latencyover]

/-- `sendemail` with a failing SMTP server and a genuine first recipient
raises, and nothing catches it. -/
theorem sendemail_fail (first : String) (rest : List String)
    (h : first ≠ "") :
    sendemail (first :: rest) false = Except.error () := by
  rw [sendemail]
  simp [h]

/-- Day-aligned branch of the cycle-deadline computation. -/
theorem nextDeadline_day (s : List Char) (now num : ℤ)
    (hnum : pyInt? s.dropLast = some num) (hd : s.getLast? = some 'd') :
    nextDeadline s now = some (now - now % 1440 + num * 1440 + 8 * 60) := by
  rw [nextDeadline, hnum, hd]
  simp

/-- Non-`'d'` branch of the cycle-deadline computation: any other unit
character means minutes. -/
theorem nextDeadline_nonday (s : List Char) (now num : ℤ) (u : Char)
    (hnum : pyInt? s.dropLast = some num) (hu : s.getLast? = some u)
    (hne : u ≠ 'd') :
    nextDeadline s now = some (now + num) := by
  rw [nextDeadline, hnum, hu]
  simp [hne]

/-! ## The claims -/

/-- C1, counterexample: the claim says the below-threshold alarm covers the
closed-open interval `0 ≤ level < threshold`, but at level exactly `0`
(inside that interval, threshold 1000, debounce wide open since the cycle
started 100 seconds ago) no alarm fires — and no warning either, since `0`
is not negative.  The condition on line 224 is `0 < soundlevel`, strict. -/
theorem C1_counterexample :
    (0 : ℚ) ≤ 0 ∧ (0 : ℚ) < optsA.threshold ∧
    latencyover optsA.period (recordInit 0 optsA.period).lastalarmtime 100
      = true ∧
    (recordStep optsA (recordInit 0 optsA.period)
      ⟨100, 0, false⟩).2.alarmSent = false ∧
    (recordStep optsA (recordInit 0 optsA.period)
      ⟨100, 0, false⟩).2.warningSent = false := by
  decide

/-- C1, amended: the below-threshold alarm interval is open at zero — the
alarm fires iff `0 < level < threshold` and the debounce permits; for
`level ≥ threshold` no below-threshold notification fires, and neither
does it at `level = 0`. -/
theorem C1_alarm_interval (opts : OPTS) (s : RecState) (tk : Tick) :
    ((recordStep opts s tk).2.alarmSent = true ↔
      0 < tk.soundlevel ∧ tk.soundlevel < opts.threshold ∧
        opts.period < tk.now - s.lastalarmtime) ∧
    (opts.threshold ≤ tk.soundlevel →
      (recordStep opts s tk).2.alarmSent = false) ∧
    (tk.soundlevel = 0 → (recordStep opts s tk).2.alarmSent = false) := by
  refine ⟨by rw [recordStep_alarmSent]; exact alarmCond_iff opts s tk, ?_, ?_⟩
  · intro h
    rw [recordStep_alarmSent, Bool.eq_false_iff]
    intro hc
    rcases (alarmCond_iff opts s tk).mp hc with ⟨-, h2, -⟩
    exact absurd h2 (not_lt.mpr h)
  · intro h
    rw [recordStep_alarmSent, Bool.eq_false_iff]
    intro hc
    rcases (alarmCond_iff opts s tk).mp hc with ⟨h1, -, -⟩
    rw [h] at h1
    exact lt_irrefl 0 h1

/-- C1, witness: at level 1500 ≥ threshold 1000 no alarm fires. -/
theorem C1_witness :
    (recordStep optsA (recordInit 0 optsA.period)
      ⟨100, 1500, false⟩).2.alarmSent = false :=
  (C1_alarm_interval optsA (recordInit 0 optsA.period)
    ⟨100, 1500, false⟩).2.1 (by decide)

/-- C2, counterexample: a failure-sentinel sample (level `-1`) is not
ignored by the extremum tracking — on a fresh cycle it wins the minimum
comparison of line 247 (`-1 < 1e9`), triggers the `savesound` minimum
capture, and becomes the stored minimum. -/
theorem C2_counterexample :
    (recordStep optsA (recordInit 0 1800) ⟨100, -1, false⟩).2.savedMin
      = true ∧
    (recordStep optsA (recordInit 0 1800) ⟨100, -1, false⟩).1.minsoundlevel
      = -1 := by
  decide

/-- C2, amended: the sentinel `-1` fully participates in the minimum
comparison — whenever the stored minimum is above `-1` a sentinel sample
triggers a minimum capture and becomes the stored minimum; it never
triggers a maximum capture as long as the stored maximum is nonnegative
(which it is: the maximum starts at 0 and only ever increases). -/
theorem C2_sentinel (opts : OPTS) (s : RecState) (tk : Tick)
    (hlev : tk.soundlevel = -1) (hmax : 0 ≤ s.maxsoundlevel) :
    ((recordStep opts s tk).2.savedMin =
      decide ((-1 : ℚ) < s.minsoundlevel)) ∧
    ((-1 : ℚ) < s.minsoundlevel →
      (recordStep opts s tk).1.minsoundlevel = -1) ∧
    (recordStep opts s tk).2.savedMax = false := by
  have hmin : newMinCond s tk = decide ((-1 : ℚ) < s.minsoundlevel) := by
    rw [newMinCond, hlev]
  refine ⟨by rw [recordStep_savedMin, hmin], ?_, ?_⟩
  · intro h
    rw [recordStep_minsoundlevel, hmin, if_pos (decide_eq_true h), hlev]
  · rw [recordStep_savedMax, newMaxCond, hlev]
    have : decide (s.maxsoundlevel < (-1 : ℚ)) = false :=
      decide_eq_false (not_lt.mpr (by linarith))
    rw [this, Bool.and_false]

/-- C2, witness: the amended behaviour at the concrete sentinel tick of the
counterexample. -/
theorem C2_witness :
    ((recordStep optsA (recordInit 0 1800) ⟨100, -1, false⟩).2.savedMin =
      decide ((-1 : ℚ) < (recordInit 0 1800).minsoundlevel)) ∧
    ((-1 : ℚ) < (recordInit 0 1800).minsoundlevel →
      (recordStep optsA (recordInit 0 1800)
        ⟨100, -1, false⟩).1.minsoundlevel = -1) ∧
    (recordStep optsA (recordInit 0 1800) ⟨100, -1, false⟩).2.savedMax
      = false :=
  C2_sentinel optsA (recordInit 0 1800) ⟨100, -1, false⟩ rfl (by decide)

/-- C3, counterexample: a tick whose alarm condition holds (level 500 below
threshold 1000, debounce open) dispatches; with a failing SMTP delivery the
uncaught `smtplib` exception aborts the tick (`recordStepE` yields the
error, losing the state update) and unwinds past the tick boundary — the
whole remaining run is aborted, further ticks included. -/
theorem C3_counterexample :
    (recordStep optsA (recordInit 0 1800) ⟨100, 500, false⟩).2.alarmSent
      = true ∧
    recordStepE optsA false (recordInit 0 1800) ⟨100, 500, false⟩
      = Except.error () ∧
    recordRunE optsA false (recordInit 0 1800)
      [⟨100, 500, false⟩, ⟨200, 1500, false⟩] = Except.error () :=
  ⟨by decide, rfl, rfl⟩

/-- C3, amended: a delivery failure is fatal, not absorbed — whenever any
of the three notifications is attempted on a tick with a genuine recipient
and the SMTP send raises, the tick evaluates to the uncaught exception (so
the last-notified timestamp update on the line after `sendemail` never
executes) and the monitoring loop aborts from that tick onwards. -/
theorem C3_delivery_fatal (opts : OPTS) (s : RecState) (tk : Tick)
    (first : String) (rest : List String)
    (hto : opts.emailto = first :: rest) (hfirst : first ≠ "")
    (hsent : (recordStep opts s tk).2.warningSent = true ∨
             (recordStep opts s tk).2.alarmSent = true ∨
             (recordStep opts s tk).2.batterySent = true) :
    recordStepE opts false s tk = Except.error () ∧
    ∀ more : List Tick,
      recordRunE opts false s (tk :: more) = Except.error () := by
  have hfail : sendemail opts.emailto false = Except.error () := by
    rw [hto]; exact sendemail_fail first rest hfirst
  have hstep : recordStepE opts false s tk = Except.error () := by
    rw [recordStepE, hfail]
    rw [recordStep_warningSent, recordStep_alarmSent,
      recordStep_batterySent] at hsent
    by_cases hw : warningCond opts s tk = true
    · simp [hw, Except.map]
    · rw [Bool.not_eq_true] at hw
      by_cases ha : alarmCond opts s tk = true
      · simp [hw, ha, Except.map]
      · rw [Bool.not_eq_true] at ha
        have hb : batteryCond opts s tk = true := by
          rcases hsent with h | h | h
          · rw [hw] at h; cases h
          · rw [ha] at h; cases h
          · exact h
        simp [hw, ha, hb, Except.map]
  refine ⟨hstep, fun more => ?_⟩
  rw [recordRunE, hstep]

/-- C3, witness: the amended fatality at a concrete alarm tick. -/
theorem C3_witness :
    recordStepE optsA false (recordInit 0 1800) ⟨150, 500, false⟩
      = Except.error () :=
  (C3_delivery_fatal optsA (recordInit 0 1800) ⟨150, 500, false⟩
    "scb@localhost" [] rfl (by decide) (Or.inr (Or.inl (by decide)))).1

/-- C4, counterexample: the last-notification timestamps do not persist
across cycles.  An alarm dispatched at `t = 100` in the first cycle
(cool-down 1800 s) should suppress a second alarm at `t = 210`; but the
second cycle starting at `t = 200` re-creates `recordday`'s locals, so the
alarm fires again at `t = 210`, only 110 s after the first. -/
theorem C4_counterexample :
    ((mainCycles optsA
        [(0, [⟨100, 500, false⟩]), (200, [⟨210, 500, false⟩])]).map
        (fun r => r.2.map TickOut.alarmSent) = [[true], [true]]) ∧
    ((recordday optsA 0 [⟨100, 500, false⟩]).1.lastalarmtime = 100) ∧
    ((210 : ℤ) - 100 ≤ optsA.period) := by
  decide

/-- C4, amended: the timestamps are cycle-local, not process-lifetime —
every cycle start re-initialises them to `start - coolDown`, so on the
first tick of a new cycle (at any instant strictly after the cycle start)
a present alarm condition dispatches regardless of any notification sent
in an earlier cycle. -/
theorem C4_cycle_local (opts : OPTS) (start : ℤ) (tk : Tick)
    (hnow : start < tk.now) (h1 : 0 < tk.soundlevel)
    (h2 : tk.soundlevel < opts.threshold) :
    (recordInit start opts.period).lastalarmtime = start - opts.period ∧
    (recordStep opts (recordInit start opts.period) tk).2.alarmSent
      = true := by
  refine ⟨rfl, ?_⟩
  rw [recordStep_alarmSent]
  exact (alarmCond_iff opts (recordInit start opts.period) tk).mpr
    ⟨h1, h2, by rw [recordInit]; dsimp only; omega⟩

/-- C4, witness: the fresh-cycle dispatch at the counterexample's second
cycle. -/
theorem C4_witness :
    (recordInit 200 optsA.period).lastalarmtime = 200 - optsA.period ∧
    (recordStep optsA (recordInit 200 optsA.period)
      ⟨210, 500, false⟩).2.alarmSent = true :=
  C4_cycle_local optsA 200 ⟨210, 500, false⟩ (by decide) (by decide)
    (by decide)

/-- C5: within a cycle, each condition kind is gated independently and a
notification dispatches iff the condition holds and strictly more than the
cool-down has elapsed since that kind's last-notified time; on a fresh
cycle state ("no prior notification") any tick strictly after the cycle
start dispatches iff the condition holds; the last-notified time is
updated exactly on dispatch; and of two alarm occurrences within one
cool-down window only the first dispatches, the second being suppressed
until the cool-down has elapsed, after which it fires again. -/
theorem C5_debounce (opts : OPTS) (s : RecState) (tk : Tick) :
    ((recordStep opts s tk).2.warningSent = true ↔
      tk.soundlevel < 0 ∧ opts.period < tk.now - s.lastwarningtime) ∧
    ((recordStep opts s tk).2.alarmSent = true ↔
      0 < tk.soundlevel ∧ tk.soundlevel < opts.threshold ∧
        opts.period < tk.now - s.lastalarmtime) ∧
    ((recordStep opts s tk).2.batterySent = true ↔
      tk.discharging = true ∧ opts.period < tk.now - s.lastbatterytime) ∧
    ((recordStep opts s tk).1.lastalarmtime =
      if (recordStep opts s tk).2.alarmSent then tk.now
      else s.lastalarmtime) ∧
    (∀ start : ℤ, s = recordInit start opts.period → start < tk.now →
      ((recordStep opts s tk).2.alarmSent = true ↔
        0 < tk.soundlevel ∧ tk.soundlevel < opts.threshold)) ∧
    (∀ tk2 : Tick, (recordStep opts s tk).2.alarmSent = true →
      tk2.now - tk.now ≤ opts.period →
      (recordStep opts (recordStep opts s tk).1 tk2).2.alarmSent
        = false) ∧
    (∀ tk2 : Tick, (recordStep opts s tk).2.alarmSent = true →
      opts.period < tk2.now - tk.now → 0 < tk2.soundlevel →
      tk2.soundlevel < opts.threshold →
      (recordStep opts (recordStep opts s tk).1 tk2).2.alarmSent
        = true) := by
  have hupd : (recordStep opts s tk).2.alarmSent = true →
      (recordStep opts s tk).1.lastalarmtime = tk.now := by
    intro h
    rw [recordStep_alarmSent] at h
    rw [recordStep_lastalarmtime, if_pos h]
  refine ⟨by rw [recordStep_warningSent]; exact warningCond_iff opts s tk,
    by rw [recordStep_alarmSent]; exact alarmCond_iff opts s tk,
    by rw [recordStep_batterySent]; exact batteryCond_iff opts s tk,
    ?_, ?_, ?_, ?_⟩
  · rw [recordStep_lastalarmtime, recordStep_alarmSent]
  · intro start hs hnow
    rw [recordStep_alarmSent, alarmCond_iff]
    constructor
    · rintro ⟨h1, h2, -⟩
      exact ⟨h1, h2⟩
    · rintro ⟨h1, h2⟩
      refine ⟨h1, h2, ?_⟩
      rw [hs, recordInit]
      dsimp only
      omega
  · intro tk2 hfired hin
    rw [recordStep_alarmSent, Bool.eq_false_iff]
    intro hc
    rcases (alarmCond_iff opts (recordStep opts s tk).1 tk2).mp hc
      with ⟨-, -, h3⟩
    rw [hupd hfired] at h3
    omega
  · intro tk2 hfired hout h1 h2
    rw [recordStep_alarmSent]
    refine (alarmCond_iff opts (recordStep opts s tk).1 tk2).mpr
      ⟨h1, h2, ?_⟩
    rw [hupd hfired]
    exact hout

/-- C5, witness: an alarm at `t = 100` dispatches and a second sub-threshold
sample at `t = 200` (within the 1800 s cool-down) is suppressed. -/
theorem C5_witness :
    (recordStep optsA (recordInit 0 1800) ⟨100, 500, false⟩).2.alarmSent
      = true ∧
    (recordStep optsA
      (recordStep optsA (recordInit 0 1800) ⟨100, 500, false⟩).1
      ⟨200, 400, false⟩).2.alarmSent = false :=
  ⟨by decide,
   (C5_debounce optsA (recordInit 0 1800) ⟨100, 500, false⟩).2.2.2.2.2.1
     ⟨200, 400, false⟩ (by decide) (by decide)⟩

/-- C6, counterexample: on the sample sequence `[5, 3, 3, 9, 1]` the claim
expects maximum captures at the first sample (5) and at 9, and none at the
tied 3.  Because the minimum and maximum branches are an `if`/`elif` pair,
the first sample only takes the minimum branch (the maximum stays 0), so
no maximum capture fires at 5 — and the repeated 3 then beats the stale
maximum 0 and does fire a maximum capture; the actual pattern is
`[false, false, true, true, false]`. -/
theorem C6_counterexample :
    (recordday optsA 0 ticks6).2.map TickOut.savedMax =
      [false, false, true, true, false] := by
  decide

/-- C6, amended: the comparisons are strict, but the `if`/`elif` chain of
lines 247-252 allows at most one artifact write per sample in total (never
one per extremum kind): a tick that captures a minimum cannot capture a
maximum.  On `[5, 3, 3, 9, 1]` the minimum captures fire at 5, 3 and 1 as
claimed, while the maximum captures fire at the repeated 3 and at 9. -/
theorem C6_extremum (opts : OPTS) (s : RecState) (tk : Tick) :
    ((recordStep opts s tk).2.savedMin = false ∨
      (recordStep opts s tk).2.savedMax = false) ∧
    ((recordday optsA 0 ticks6).2.map TickOut.savedMin =
      [true, true, false, false, true]) ∧
    ((recordday optsA 0 ticks6).2.map TickOut.savedMax =
      [false, false, true, true, false]) := by
  refine ⟨?_, by decide, by decide⟩
  by_cases h : newMinCond s tk = true
  · right
    rw [recordStep_savedMax, newMaxCond, h, Bool.not_true, Bool.false_and]
  · left
    rw [recordStep_savedMin, Bool.eq_false_iff]
    exact h

/-- C7, counterexample: sending with an empty recipient list is not a
no-op — `message.to[0]` on line 79 raises `IndexError`, which propagates
to the caller. -/
theorem C7_counterexample : sendemail [] true = Except.error () := rfl

/-- C7, amended: only a recipient list whose first entry is the empty
string takes the documented log-only path (no network call, no exception,
nothing sent); an empty recipient list instead raises `IndexError` to the
caller. -/
theorem C7_empty_recipient (rest : List String) (smtpOk : Bool) :
    sendemail ("" :: rest) smtpOk = Except.ok false ∧
    sendemail [] smtpOk = Except.error () :=
  ⟨rfl, rfl⟩

/-- C8: the cycle deadline is correct for both cadence shapes — for a
day-aligned cadence `"<n>d"` it is the most recent midnight plus `n` days
plus 8 hours (the midnight being the unique multiple of 1440 minutes at
most `now` and within a day of it), and for a plain duration cadence the
deadline is `now` plus the parsed number of minutes. -/
theorem C8_deadline (s : List Char) (now num : ℤ)
    (hnum : pyInt? s.dropLast = some num) :
    (s.getLast? = some 'd' →
      ∃ m : ℤ, m % 1440 = 0 ∧ m ≤ now ∧ now < m + 1440 ∧
        nextDeadline s now = some (m + num * 1440 + 8 * 60)) ∧
    (∀ u : Char, s.getLast? = some u → u ≠ 'd' →
      nextDeadline s now = some (now + num)) := by
  constructor
  · intro hd
    refine ⟨now - now % 1440, by omega, by omega, by omega, ?_⟩
    exact nextDeadline_day s now num hnum hd
  · intro u hu hne
    exact nextDeadline_nonday s now num u hnum hu hne

/-- C8, witness: cadence `"2d"` at minute 3000 of the epoch (midnight at
2880) gives deadline `2880 + 2*1440 + 480`. -/
theorem C8_witness :
    ∃ m : ℤ, m % 1440 = 0 ∧ m ≤ 3000 ∧ 3000 < m + 1440 ∧
      nextDeadline ['2', 'd'] 3000 = some (m + 2 * 1440 + 8 * 60) :=
  (C8_deadline ['2', 'd'] 3000 2 (by decide)).1 (by decide)

/-- C9, counterexample: a configuration with the non-positive threshold
`-5` is not rejected — `main` builds its `OPTS` and proceeds to the
startup e-mail and the monitoring loop; no invariant is checked. -/
theorem C9_counterexample :
    mainStarts cliBad = true ∧ mainParse cliBad = some optsNeg ∧
    optsNeg.threshold < 0 := by
  decide

/-- C9, amended: startup rejects a configuration only for unparseable
numeric option strings (Python `ValueError`); no invariant such as
`threshold > 0` is validated, so any integer threshold is accepted — and
under a non-positive threshold the loop runs with the below-threshold
alarm unsatisfiable (`0 < level < threshold` is empty), so no alarm ever
fires. -/
theorem C9_no_validation (o : CliOptions) :
    (mainStarts o = true ↔
      (pyInt? o.threshold).isSome ∧ (pyInt? o.rate).isSome ∧
      (pyInt? o.seconds).isSome ∧ (pyInt? o.warnperiod).isSome) ∧
    (∀ opts : OPTS, mainParse o = some opts → opts.threshold ≤ 0 →
      ∀ (s : RecState) (tk : Tick),
        (recordStep opts s tk).2.alarmSent = false) := by
  constructor
  · rw [mainStarts, mainParse]
    rcases pyInt? o.threshold with - | th <;>
      rcases pyInt? o.rate with - | ra <;>
      rcases pyInt? o.seconds with - | se <;>
      rcases pyInt? o.warnperiod with - | pe <;> simp
  · intro opts hparse hle s tk
    rw [recordStep_alarmSent, Bool.eq_false_iff]
    intro hc
    rcases (alarmCond_iff opts s tk).mp hc with ⟨h1, h2, -⟩
    linarith

/-- C9, witness: under the accepted threshold `-5` configuration, a tick at
level 500 raises no alarm. -/
theorem C9_witness :
    (recordStep optsNeg (recordInit 0 1800) ⟨100, 500, false⟩).2.alarmSent
      = false :=
  (C9_no_validation cliBad).2 optsNeg (by decide) (by decide)
    (recordInit 0 1800) ⟨100, 500, false⟩

/-- C10: for every cadence string whose final character is not `'d'` and
whose prefix parses as an integer, the deadline is `now` plus that many
minutes — the unit character `'m'` is never checked, so `"30s"`, `"2x"`
and any other non-`'d'` unit are silently interpreted as minutes. -/
theorem C10_nonday_minutes (s : List Char) (now num : ℤ) (u : Char)
    (hnum : pyInt? s.dropLast = some num) (hu : s.getLast? = some u)
    (hne : u ≠ 'd') :
    nextDeadline s now = some (now + num) :=
  nextDeadline_nonday s now num u hnum hu hne

/-- C10, witness: `"30s"` yields now + 30 minutes and `"2x"` yields now + 2
minutes. -/
theorem C10_witness :
    nextDeadline ['3', '0', 's'] 100 = some 130 ∧
    nextDeadline ['2', 'x'] 100 = some 102 :=
  ⟨C10_nonday_minutes ['3', '0', 's'] 100 30 's' (by decide) (by decide)
      (by decide),
   C10_nonday_minutes ['2', 'x'] 100 2 'x' (by decide) (by decide)
      (by decide)⟩

end SoundMonitor
